import Mathlib

/-!
Shallow embedding of the podcast catalog application (`src/script.js`).

Modelling conventions:
* JS strings are lists of characters (`Str`); `str` injects Lean string
  literals.  `toLowerCase`/`trim` are modelled for the ASCII range, which
  covers every string this program manipulates.
* A JS `Date` value is `Option Int`: `some t` is a time value of `t`
  milliseconds since the epoch, `none` is an Invalid Date (`NaN` time value).
* JS numbers appearing in this program (ids, popularity, episode counts,
  day arithmetic) are integers and are modelled as `Int`/`Nat`.
* DOM effects are modelled as values: the modal is a record of its observable
  attributes, a grid card is a record of the text/style assignments made to it,
  and array identity (needed for the no-mutation claims) is modelled by a heap
  of arrays addressed by index.
-/

/-- JS strings, modelled as lists of characters. -/
abbrev Str := List Char

/-- Inject a Lean string literal into the `Str` model. -/
def str (s : String) : Str := s.toList

/-- ASCII whitespace recognised by the model of `String.prototype.trim`. -/
def isWs (c : Char) : Bool := c == ' ' || c == '\t' || c == '\n' || c == '\r'

/-- Model of `String.prototype.trim` (ASCII whitespace). -/
def jsTrim (s : Str) : Str := ((s.dropWhile isWs).reverse.dropWhile isWs).reverse

/-- Model of `String.prototype.toLowerCase` (ASCII range). -/
def jsLower (s : Str) : Str := s.map Char.toLower

/-- Test whether `needle` is an initial segment of `hay`. -/
def leadEq : Str → Str → Bool
  | [], _ => true
  | _ :: _, [] => false
  | a :: as, b :: bs => a == b && leadEq as bs

/-- Model of `String.prototype.includes`: `needle` occurs contiguously in
`hay`. -/
def hasSub : Str → Str → Bool
  | [], needle => needle.isEmpty
  | c :: t, needle => leadEq needle (c :: t) || hasSub t needle

/-- Model of `Array.prototype.join` with separator `sep`. -/
def joinSep (sep : Str) : List Str → Str
  | [] => []
  | [x] => x
  | x :: y :: t => x ++ sep ++ joinSep sep (y :: t)

/-- A season entry `{ title, description?, episodes }`; `description` is
`none` when the field is absent (JS `undefined`). -/
structure Season where
  title : Str
  description : Option Str
  episodes : Nat
deriving DecidableEq

/-- One catalog record, as the `Podcast` class instance holds it after
construction. -/
structure Podcast where
  id : Int
  title : Str
  cover : Str
  description : Str
  genres : List Str
  seasons : List Season
  updated : Option Int
  popularity : Int
deriving DecidableEq

/-- The raw source object `o` handed to the `Podcast` constructor
(script.js 25–29).  `seasonsField` is `none` when `o.seasons` is not an array;
`updated` is the value of `new Date(o.updated)`, i.e. `none` when the update
timestamp is unparseable. -/
structure RawPodcast where
  id : Int
  title : Str
  cover : Str
  description : Str
  genres : List Str
  seasonsField : Option (List Season)
  updated : Option Int
  popularity : Int
deriving DecidableEq

/-- Model of the `Podcast` constructor (script.js 25–29): copies the fields,
keeps whatever `new Date(o.updated)` produced (no repair of an invalid date),
and replaces a non-array `seasons` by the empty array. -/
def Podcast.ofRaw (o : RawPodcast) : Podcast :=
  { id := o.id,
    title := o.title,
    cover := o.cover,
    description := o.description,
    genres := o.genres,
    seasons := match o.seasonsField with
      | some s => s
      | none => [],
    updated := o.updated,
    popularity := o.popularity }

/-- Model of `getSeasonCount` (script.js 35–37). -/
def Podcast.getSeasonCount (p : Podcast) : Nat := p.seasons.length

/-- Model of `getLastUpdatedHuman` (script.js 44–51).  `Date.now()` is passed
in as `now`.  `Math.floor` of the real-division quotient is integer floor
division (`Int.fdiv`).  With an invalid date, `days` is `NaN`: every guard
(`NaN <= 0`, `NaN === 1`, `NaN < 7`, `NaN > 1`) is false and `NaN` renders as
"NaN", producing "Updated NaN week ago". -/
def Podcast.getLastUpdatedHuman (p : Podcast) (now : Int) : Str :=
  match p.updated with
  | some t =>
    let days : Int := Int.fdiv (now - t) 86400000
    if days ≤ 0 then str ("Updated today")
    else if days = 1 then str ("Updated yesterday")
    else if days < 7 then str ("Updated ") ++ str (toString days) ++ str (" days ago")
    else
      let weeks : Int := Int.fdiv days 7
      str ("Updated ") ++ str (toString weeks) ++ str (" week") ++
        (if 1 < weeks then str ("s") else []) ++ str (" ago")
  | none => str ("Updated NaN week ago")

/-- Model of `filterByGenre` (script.js 351–354).  `!genre` is true exactly
for the empty string here.  `list.slice()` and `list.filter(...)` both return
the same elements in the same order; freshness of the returned array is
modelled separately on the heap (`filterByGenreH`). -/
def filterByGenre (list : List Podcast) (genre : Str) : List Podcast :=
  if genre = [] ∨ genre = str ("All Genres") then list
  else list.filter (fun p => p.genres.contains genre)

/-- Model of `applySearch` (script.js 376–383): normalize the query by
`trim().toLowerCase()`; empty query passes the list through; otherwise keep
records whose lowercased title or lowercased space-joined genre string contains
the query. -/
def applySearch (list : List Podcast) (q : Str) : List Podcast :=
  let query := jsLower (jsTrim q)
  if query = [] then list
  else list.filter (fun p =>
    hasSub (jsLower p.title) query ||
    hasSub (jsLower (joinSep (str (" ")) p.genres)) query)

/-- Value of the comparator expression `new Date(b.updated) - new Date(a.updated)`
as `Array.prototype.sort` consumes it: subtracting an invalid date gives `NaN`,
which the `SortCompare` step of the ECMAScript sort coerces to `+0`. -/
def dateDiff : Option Int → Option Int → Int
  | some x, some y => x - y
  | some _, none => 0
  | none, _ => 0

/-- Relation "a sorts no later than b" under the comparator
`(a, b) => b.popularity - a.popularity` (comparator value `≤ 0`). -/
def cmpPop (a b : Podcast) : Prop := b.popularity - a.popularity ≤ 0

/-- Relation "a sorts no later than b" under the comparator
`(a, b) => new Date(b.updated) - new Date(a.updated)`. -/
def cmpUpd (a b : Podcast) : Prop := dateDiff b.updated a.updated ≤ 0

instance : DecidableRel cmpPop := fun a b => Int.decLe (b.popularity - a.popularity) 0

instance : DecidableRel cmpUpd := fun a b => Int.decLe (dateDiff b.updated a.updated) 0

/-- Model of `sortList` (script.js 362–368): copy the list, then sort the copy
in place.  `Array.prototype.sort` is a stable sort that, for a consistent
comparator, places `a` no later than `b` exactly when comparator `(a, b) ≤ 0`;
`List.insertionSort` with that relation is such a sort. -/
def sortList (list : List Podcast) (type : Str) : List Podcast :=
  if type = str ("Most Popular") then list.insertionSort cmpPop
  else if type = str ("Newest") then list.insertionSort cmpUpd
  else list.insertionSort cmpUpd

/-- The apostrophe character. -/
def squote : Char := Char.ofNat 39

/-- Replacement performed for one character by the regex-with-map in
`escapeHtml` (script.js 325–328). -/
def escChar (c : Char) : Str :=
  if c = '&' then str ("&amp;")
  else if c = '<' then str ("&lt;")
  else if c = '>' then str ("&gt;")
  else if c = '"' then str ("&quot;")
  else if c = squote then str ("&#39;")
  else [c]

/-- Model of `escapeHtml` (script.js 325–328): replace each of the five
characters by its entity.  The `typeof` guard is irrelevant here because every
modelled input is a string. -/
def escapeHtml (s : Str) : Str := (s.map escChar).flatten

/-- The interpolation `background-image:url('${p.cover}')` used in the modal
template: the cover URL is inserted verbatim, not escaped. -/
def bgUrl (cover : Str) : Str := str ("background-image:url('") ++ cover ++ str ("')")

/-- One genre tag of the modal template: `<span class="tag">...</span>`. -/
def genreSpan (g : Str) : Str := str ("<span class=\"tag\">") ++ g ++ str ("</span>")

/-- One season row of the modal template (script.js 276–284), with the title
and description slots already filled. -/
def seasonRow (title desc : Str) (episodes : Nat) : Str :=
  str ("\n          <li class=\"season-row\">\n            <div class=\"season-meta\">\n              <div class=\"season-title\">") ++
    title ++
  str ("</div>\n              <div class=\"season-desc\">") ++
    desc ++
  str ("</div>\n            </div>\n            <span class=\"episodes-count\">") ++
    str (toString episodes) ++
  str (" episodes</span>\n          </li>\n        ")

/-- Model of the innerHTML string built by `openModal` (script.js 256–287).
`fmtDate` stands for the host-locale `toLocaleDateString` rendering used by
`getFullDate`; `s.description || ""` maps an absent description to the empty
string. -/
def openModalHtml (fmtDate : Option Int → Str) (p : Podcast) : Str :=
  str ("\n    <h2 id=\"modal-title\" class=\"modal-title\">") ++
    escapeHtml p.title ++
  str ("</h2>\n    <div class=\"modal-top\">\n      <div class=\"modal-cover\" style=\"") ++
    bgUrl p.cover ++
  str ("\"></div>\n      <div>\n        <div class=\"section-title\">Description</div>\n        <p class=\"description\">") ++
    escapeHtml p.description ++
  str ("</p>\n\n        <div class=\"section-title\">Genres</div>\n        <div class=\"modal-tags\">\n          ") ++
    (p.genres.map (fun g => genreSpan (escapeHtml g))).flatten ++
  str ("\n        </div>\n\n        <div class=\"modal-updated\">Last updated: ") ++
    fmtDate p.updated ++
  str ("</div>\n      </div>\n    </div>\n\n    <div class=\"seasons\">\n      <h3>Seasons</h3>\n      <ul class=\"season-list\">\n        ") ++
    (p.seasons.map (fun s => seasonRow (escapeHtml s.title) (escapeHtml (s.description.getD [])) s.episodes)).flatten ++
  str ("\n      </ul>\n    </div>\n  ")

/-- The same modal template abstracted over the values occupying its slots;
used to state which slot of `openModalHtml` receives which (escaped or raw)
field. -/
def modalTemplate (title desc cover fullDate : Str) (genreItems : List Str)
    (seasonItems : List (Str × Str × Nat)) : Str :=
  str ("\n    <h2 id=\"modal-title\" class=\"modal-title\">") ++
    title ++
  str ("</h2>\n    <div class=\"modal-top\">\n      <div class=\"modal-cover\" style=\"") ++
    bgUrl cover ++
  str ("\"></div>\n      <div>\n        <div class=\"section-title\">Description</div>\n        <p class=\"description\">") ++
    desc ++
  str ("</p>\n\n        <div class=\"section-title\">Genres</div>\n        <div class=\"modal-tags\">\n          ") ++
    (genreItems.map genreSpan).flatten ++
  str ("\n        </div>\n\n        <div class=\"modal-updated\">Last updated: ") ++
    fullDate ++
  str ("</div>\n      </div>\n    </div>\n\n    <div class=\"seasons\">\n      <h3>Seasons</h3>\n      <ul class=\"season-list\">\n        ") ++
    (seasonItems.map (fun x => seasonRow x.1 x.2.1 x.2.2)).flatten ++
  str ("\n      </ul>\n    </div>\n  ")

/-- Observable state of the detail overlay: the "show" class on the modal
element, its `aria-hidden` attribute, the innerHTML of `modal-inner`, whether
the document-level `handleEscClose` keydown listener is attached, and whether
the close button holds focus. -/
structure ModalState where
  showClass : Bool
  ariaHidden : Str
  innerHtml : Str
  escListener : Bool
  closeBtnFocused : Bool
deriving DecidableEq

/-- Model of `showModal` (script.js 294–300): add the class, flip
`aria-hidden`, focus the close button, attach the escape listener. -/
def showModal (m : ModalState) : ModalState :=
  { m with
    showClass := true
    ariaHidden := str ("false")
    closeBtnFocused := true
    escListener := true }

/-- Model of `openModal` (script.js 255–289): set `modal-inner.innerHTML` to
the detail view and then `showModal`. -/
def openModal (fmtDate : Option Int → Str) (p : Podcast) (m : ModalState) : ModalState :=
  showModal { m with innerHtml := openModalHtml fmtDate p }

/-- Model of `hideModal` (script.js 305–310): remove the class, flip
`aria-hidden`, clear the detail content, detach the escape listener.  Focus is
not touched. -/
def hideModal (m : ModalState) : ModalState :=
  { m with
    showClass := false
    ariaHidden := str ("true")
    innerHtml := []
    escListener := false }

/-- The observable closed state of the overlay. -/
def ModalState.isClosed (m : ModalState) : Prop :=
  m.showClass = false ∧ m.ariaHidden = str ("true") ∧ m.innerHtml = [] ∧
    m.escListener = false

instance (m : ModalState) : Decidable m.isClosed := by
  unfold ModalState.isClosed
  infer_instance

/-- One grid card as `renderPodcasts` builds it (script.js 197–247): the
`aria-label`, the cover `background-image` style, and the textContent
assignments.  All card text goes through `textContent`, never through
innerHTML. -/
structure Card where
  ariaLabel : Str
  coverStyle : Str
  title : Str
  seasonsMeta : Str
  tags : List Str
  updatedMeta : Str
deriving DecidableEq

/-- Card construction for one podcast (script.js 197–247). -/
def cardOf (p : Podcast) (now : Int) : Card :=
  { ariaLabel := p.title ++ str (" — ") ++ str (toString p.getSeasonCount) ++
      str (" seasons — ") ++ p.getLastUpdatedHuman now,
    coverStyle := str ("url('") ++ p.cover ++ str ("')"),
    title := p.title,
    seasonsMeta := str (toString p.getSeasonCount) ++ str (" ") ++
      (if p.getSeasonCount = 1 then str ("season") else str ("seasons")),
    tags := p.genres,
    updatedMeta := p.getLastUpdatedHuman now }

/-- A heap of JS arrays of podcasts, addressed by index; used to express
aliasing and mutation facts about the pipeline functions. -/
abbrev Heap := List (List Podcast)

/-- Read the array stored at reference `r`. -/
def readArr (h : Heap) (r : Nat) : List Podcast := h.getD r []

/-- Heap-level `filterByGenre`: both `list.slice()` and `list.filter(...)`
allocate a fresh array holding the computed contents; no existing array is
written. -/
def filterByGenreH (h : Heap) (r : Nat) (genre : Str) : Heap × Nat :=
  (h ++ [filterByGenre (readArr h r) genre], h.length)

/-- Heap-level `applySearch`: `list.slice()` / `list.filter(...)` allocate a
fresh array; no existing array is written. -/
def applySearchH (h : Heap) (r : Nat) (q : Str) : Heap × Nat :=
  (h ++ [applySearch (readArr h r) q], h.length)

/-- Heap-level `sortList`: `list.slice()` allocates a fresh copy and
`arr.sort(...)` then permutes that fresh copy in place, so the net heap effect
is the allocation of the sorted copy; no existing array is written. -/
def sortListH (h : Heap) (r : Nat) (type : Str) : Heap × Nat :=
  (h ++ [sortList (readArr h r) type], h.length)

/-- Modelled from the spec: the "last updated" tier function exactly as claim
C6 words it, as a function of the whole-day difference `d`. -/
def lastUpdatedSpec (d : Int) : Str :=
  if d ≤ 0 then str ("Updated today")
  else if d = 1 then str ("Updated yesterday")
  else if 2 ≤ d ∧ d ≤ 6 then str ("Updated ") ++ str (toString d) ++ str (" days ago")
  else
    str ("Updated ") ++ str (toString (Int.fdiv d 7)) ++ str (" week") ++
      (if 1 < Int.fdiv d 7 then str ("s") else []) ++ str (" ago")

/-- Model of `daysAgoISO(n)` (script.js 162–166) composed with the `Podcast`
constructor's date parse: the date-only ISO string for `now` minus `n` days
parses back as a UTC midnight, i.e. the day-boundary floor of `now - n` days
(a UTC host environment is assumed). -/
def daysAgoISOParsed (now : Int) (n : Int) : Option Int :=
  some (86400000 * Int.fdiv (now - n * 86400000) 86400000)

/-- Model of the `SAMPLE_PODCASTS` dataset (script.js 66–155), parameterised by
the current time used by `daysAgoISO`.  The fixed string "2025-01-15" of record
1 parses to 1736899200000 ms. -/
def SAMPLE_PODCASTS (now : Int) : List Podcast :=
  [ { id := 1,
      title := str ("Tech Talks Daily"),
      cover := str ("https://picsum.photos/seed/tech1/600/400"),
      description := str ("Deep dives into technology trends, AI, and digital transformation with expert interviews and case studies."),
      genres := [str ("Technology"), str ("Business")],
      seasons :=
        [ { title := str ("Season 1: Getting Started"), description := some (str ("Introduction to the fundamentals")), episodes := 12 },
          { title := str ("Season 2: Advanced Topics"), description := some (str ("Deep dives into complex subjects")), episodes := 15 },
          { title := str ("Season 3: Industry Insights"), description := some (str ("Expert perspectives and case studies")), episodes := 18 },
          { title := str ("Season 4: Future Trends"), description := some (str ("What's coming next in tech")), episodes := 20 } ],
      updated := some 1736899200000,
      popularity := 95 },
    { id := 2,
      title := str ("Crime Junkie"),
      cover := str ("https://picsum.photos/seed/crime2/600/400"),
      description := str ("True crime stories, investigations, and mysteries that keep you on the edge."),
      genres := [str ("True Crime"), str ("Mystery")],
      seasons :=
        [ { title := str ("Season 1: Dark Stories"), description := some (str ("Chilling cases that shocked the world")), episodes := 20 },
          { title := str ("Season 2: Cold Cases"), description := some (str ("Unsolved crimes revisited")), episodes := 18 } ],
      updated := daysAgoISOParsed now 7,
      popularity := 88 },
    { id := 3,
      title := str ("Comedy Bang Bang"),
      cover := str ("https://picsum.photos/seed/comedy3/600/400"),
      description := str ("Improvised comedy and interviews with a rotating cast of characters."),
      genres := [str ("Comedy"), str ("Entertainment")],
      seasons := [ { title := str ("Season 1"), description := some (str ("Sketches and bits")), episodes := 22 } ],
      updated := daysAgoISOParsed now 3,
      popularity := 82 },
    { id := 4,
      title := str ("How I Built This"),
      cover := str ("https://picsum.photos/seed/biz4/600/400"),
      description := str ("Founders tell the stories behind the movements they built."),
      genres := [str ("Business"), str ("Entrepreneurship")],
      seasons := [ { title := str ("Season 1"), description := some (str ("Origin stories")), episodes := 18 } ],
      updated := daysAgoISOParsed now 5,
      popularity := 91 },
    { id := 5,
      title := str ("The Daily Meditation"),
      cover := str ("https://picsum.photos/seed/med5/600/400"),
      description := str ("Mindfulness practices and talks for everyday calm."),
      genres := [str ("Health"), str ("Lifestyle")],
      seasons := [ { title := str ("Season 1"), description := some (str ("Breathe and relax")), episodes := 30 } ],
      updated := daysAgoISOParsed now 1,
      popularity := 70 },
    { id := 6,
      title := str ("Hardcore History"),
      cover := str ("https://picsum.photos/seed/hist6/600/400"),
      description := str ("Long-form explorations of pivotal moments and people."),
      genres := [str ("History"), str ("Education")],
      seasons := [ { title := str ("Season 1"), description := some (str ("Ancient wars")), episodes := 10 } ],
      updated := daysAgoISOParsed now 4,
      popularity := 99 },
    { id := 7,
      title := str ("The Sports Desk"),
      cover := str ("https://picsum.photos/seed/sports7/600/400"),
      description := str ("Analysis and interviews from across the sports world."),
      genres := [str ("Sports"), str ("News")],
      seasons := [ { title := str ("Season 1"), description := some (str ("Weekly recaps")), episodes := 24 } ],
      updated := daysAgoISOParsed now 6,
      popularity := 76 },
    { id := 8,
      title := str ("Curious Minds"),
      cover := str ("https://picsum.photos/seed/sci8/600/400"),
      description := str ("Science explained through engaging stories and experiments."),
      genres := [str ("Science"), str ("Nature")],
      seasons := [ { title := str ("Season 1"), description := some (str ("Everyday science")), episodes := 16 } ],
      updated := daysAgoISOParsed now 8,
      popularity := 85 } ]

/-- A small concrete podcast used to instantiate hypotheses in witnesses. -/
def demoPodcast : Podcast :=
  { id := 42,
    title := str ("Demo Show"),
    cover := str ("https://example.test/c.png"),
    description := str ("About things."),
    genres := [str ("Technology")],
    seasons := [ { title := str ("Season 1"), description := none, episodes := 3 } ],
    updated := some 0,
    popularity := 50 }

/-- A podcast whose title holds markup and whose cover holds a quote and a
tag, used to exhibit that the cover is embedded raw while the title is not. -/
def exhibitPodcast : Podcast :=
  { id := 9,
    title := str ("<b>hi</b>"),
    cover := str ("x'<b>"),
    description := str ("d"),
    genres := [str ("g")],
    seasons := [ { title := str ("s"), description := some (str ("e")), episodes := 2 } ],
    updated := some 0,
    popularity := 1 }

/-- A date renderer standing in for `toLocaleDateString` in closed exhibits. -/
def exhibitFmt (d : Option Int) : Str :=
  match d with
  | some _ => str ("January 1, 1970")
  | none => str ("Invalid Date")

/-- A raw source record whose `seasons` field is not an array and whose update
timestamp does not parse. -/
def rawBad : RawPodcast :=
  { id := 1,
    title := str ("Bad"),
    cover := [],
    description := [],
    genres := [],
    seasonsField := none,
    updated := none,
    popularity := 0 }

example : jsLower (jsTrim (str ("  TeCh  "))) = str ("tech") := by decide

example : hasSub (str ("crime junkie")) (str ("junkie")) = true := by decide

example : hasSub (str ("crime junkie")) (str ("junk e")) = false := by decide

example : joinSep (str (" ")) [str ("True Crime"), str ("Mystery")] = str ("True Crime Mystery") := by
  decide

/-! Helper lemmas shared by the claim theorems. -/

/-- A character that cannot open or close markup or break out of a quoted
attribute. -/
abbrev markupFree (c : Char) : Prop := c ≠ '<' ∧ c ≠ '>' ∧ c ≠ '"' ∧ c ≠ squote

theorem escChar_markupFree (a c : Char) (hc : c ∈ escChar a) : markupFree c := by
  unfold escChar at hc
  split_ifs at hc with h1 h2 h3 h4 h5
  · exact (by decide : ∀ x ∈ str ("&amp;"), markupFree x) c hc
  · exact (by decide : ∀ x ∈ str ("&lt;"), markupFree x) c hc
  · exact (by decide : ∀ x ∈ str ("&gt;"), markupFree x) c hc
  · exact (by decide : ∀ x ∈ str ("&quot;"), markupFree x) c hc
  · exact (by decide : ∀ x ∈ str ("&#39;"), markupFree x) c hc
  · rcases List.mem_singleton.mp hc with rfl
    exact ⟨h2, h3, h4, h5⟩

theorem escapeHtml_markupFree (s : Str) (c : Char) (hc : c ∈ escapeHtml s) : markupFree c := by
  unfold escapeHtml at hc
  obtain ⟨l, hl, hcl⟩ := List.mem_flatten.mp hc
  obtain ⟨a, _, rfl⟩ := List.mem_map.mp hl
  exact escChar_markupFree a c hcl

theorem hasSub_nil_needle : ∀ hay : Str, hasSub hay [] = true
  | [] => rfl
  | _ :: _ => by simp [hasSub, leadEq]

theorem leadEq_self : ∀ s : Str, leadEq s s = true
  | [] => rfl
  | a :: as => by simp [leadEq, leadEq_self as]

theorem leadEq_extend : ∀ n h e : Str, leadEq n h = true → leadEq n (h ++ e) = true
  | [], _, _, _ => rfl
  | _ :: _, [], _, hle => by simp [leadEq] at hle
  | a :: as, b :: bs, e, hle => by
    simp only [leadEq, Bool.and_eq_true] at hle
    simp only [List.cons_append, leadEq, Bool.and_eq_true]
    exact ⟨hle.1, leadEq_extend as bs e hle.2⟩

theorem hasSub_append_right : ∀ x y n : Str, hasSub y n = true → hasSub (x ++ y) n = true
  | [], _, _, h => h
  | c :: t, y, n, h => by
    simp only [List.cons_append, hasSub, Bool.or_eq_true]
    exact Or.inr (hasSub_append_right t y n h)

theorem hasSub_append_left : ∀ x y n : Str, hasSub x n = true → hasSub (x ++ y) n = true
  | [], y, n, h => by
    have hn : n = [] := by simpa [hasSub, List.isEmpty_iff] using h
    subst hn
    exact hasSub_nil_needle y
  | c :: t, y, n, h => by
    simp only [hasSub, Bool.or_eq_true] at h
    simp only [List.cons_append, hasSub, Bool.or_eq_true]
    cases h with
    | inl hl => exact Or.inl (leadEq_extend n (c :: t) y hl)
    | inr hr => exact Or.inr (hasSub_append_left t y n hr)

theorem hasSub_self : ∀ n : Str, hasSub n n = true
  | [] => rfl
  | c :: t => by
    simp only [hasSub, Bool.or_eq_true]
    exact Or.inl (leadEq_self (c :: t))

theorem chain'_orderedInsert {α : Type} (r : α → α → Prop) [DecidableRel r]
    (tot : ∀ a b : α, r a b ∨ r b a) (a : α) :
    ∀ l : List α, List.Chain' r l → List.Chain' r (l.orderedInsert r a)
  | [], _ => List.chain'_singleton a
  | b :: l, hbl => by
    simp only [List.orderedInsert]
    split_ifs with hab
    · exact List.chain'_cons.mpr ⟨hab, hbl⟩
    · have hba : r b a := (tot a b).resolve_left hab
      have htl : List.Chain' r l := hbl.tail
      have ih := chain'_orderedInsert r tot a l htl
      cases l with
      | nil =>
        simp only [List.orderedInsert]
        exact List.chain'_cons.mpr ⟨hba, List.chain'_singleton a⟩
      | cons c l2 =>
        simp only [List.orderedInsert] at ih ⊢
        split_ifs at ih ⊢ with hac
        · exact List.chain'_cons.mpr ⟨hba, ih⟩
        · exact List.chain'_cons.mpr ⟨(List.chain'_cons.mp hbl).1, ih⟩

theorem chain'_insertionSort {α : Type} (r : α → α → Prop) [DecidableRel r]
    (tot : ∀ a b : α, r a b ∨ r b a) :
    ∀ l : List α, List.Chain' r (l.insertionSort r)
  | [] => List.chain'_nil
  | b :: l => by
    simp only [List.insertionSort]
    exact chain'_orderedInsert r tot b _ (chain'_insertionSort r tot l)

theorem filter_orderedInsert_neg {α : Type} (r : α → α → Prop) [DecidableRel r]
    (p : α → Bool) (a : α) (ha : p a = false) :
    ∀ l : List α, (l.orderedInsert r a).filter p = l.filter p
  | [] => by simp [List.orderedInsert, List.filter_cons, ha]
  | b :: l => by
    simp only [List.orderedInsert]
    split_ifs with hab
    · simp [List.filter_cons, ha]
    · simp [List.filter_cons, filter_orderedInsert_neg r p a ha l]

theorem filter_orderedInsert_pos {α : Type} (r : α → α → Prop) [DecidableRel r]
    (p : α → Bool) (a : α) (ha : p a = true)
    (hdrop : ∀ b : α, ¬ r a b → p b = false) :
    ∀ l : List α, (l.orderedInsert r a).filter p = a :: l.filter p
  | [] => by simp [List.orderedInsert, List.filter_cons, ha]
  | b :: l => by
    simp only [List.orderedInsert]
    split_ifs with hab
    · simp [List.filter_cons, ha]
    · have hb : p b = false := hdrop b hab
      simp [List.filter_cons, hb, filter_orderedInsert_pos r p a ha hdrop l]

theorem filter_insertionSort {α : Type} (r : α → α → Prop) [DecidableRel r]
    (p : α → Bool) (hdrop : ∀ a b : α, p a = true → ¬ r a b → p b = false) :
    ∀ l : List α, (l.insertionSort r).filter p = l.filter p
  | [] => rfl
  | b :: l => by
    simp only [List.insertionSort]
    cases hb : p b with
    | true =>
      rw [filter_orderedInsert_pos r p b hb (fun c hc => hdrop b c hb hc),
        filter_insertionSort r p hdrop l]
      simp [List.filter_cons, hb]
    | false =>
      rw [filter_orderedInsert_neg r p b hb, filter_insertionSort r p hdrop l]
      simp [List.filter_cons, hb]

theorem readArr_alloc_old (h : Heap) (v : List Podcast) (i : Nat) (hi : i < h.length) :
    readArr (h ++ [v]) i = readArr h i :=
  List.getD_append h [v] [] i hi

theorem readArr_alloc_new (h : Heap) (v : List Podcast) :
    readArr (h ++ [v]) h.length = v := by
  unfold readArr
  rw [List.getD_append_right h [v] [] h.length (le_refl _)]
  simp

/-! Claim theorems. -/

/-- C1: for every record list and genre string `g` that is non-empty and not
"All Genres", `filterByGenre(list, g)` returns exactly those records whose
`genres` sequence contains `g`, as a subsequence preserving the input's
relative order; when `g` is empty or equals "All Genres" it returns all
records order-preserved. -/
theorem filterByGenre_exact (l : List Podcast) (g : Str) (p : Podcast) :
    ((g ≠ [] ∧ g ≠ str ("All Genres")) →
      ((p ∈ filterByGenre l g ↔ p ∈ l ∧ p.genres.contains g = true) ∧
        List.Sublist (filterByGenre l g) l)) ∧
    ((g = [] ∨ g = str ("All Genres")) → filterByGenre l g = l) := by
  constructor
  · rintro ⟨h1, h2⟩
    have hcond : ¬ (g = [] ∨ g = str ("All Genres")) := by
      rintro (h | h)
      exacts [h1 h, h2 h]
    unfold filterByGenre
    rw [if_neg hcond]
    exact ⟨List.mem_filter, List.filter_sublist l⟩
  · intro h
    unfold filterByGenre
    rw [if_pos h]

/-- Witness for C1 at a concrete list and genre. -/
theorem filterByGenre_exact_witness :
    ((demoPodcast ∈ filterByGenre [demoPodcast] (str ("Technology")) ↔
        demoPodcast ∈ [demoPodcast] ∧
          demoPodcast.genres.contains (str ("Technology")) = true) ∧
      List.Sublist (filterByGenre [demoPodcast] (str ("Technology"))) [demoPodcast]) ∧
    filterByGenre [demoPodcast] (str ("All Genres")) = [demoPodcast] :=
  ⟨(filterByGenre_exact [demoPodcast] (str ("Technology")) demoPodcast).1
      ⟨by decide, by decide⟩,
    (filterByGenre_exact [demoPodcast] (str ("All Genres")) demoPodcast).2 (Or.inr rfl)⟩

/-- C2: `applySearch` normalizes the query by trimming and lowercasing; an
empty normalized query returns all records; otherwise it retains exactly the
records whose lowercased title or lowercased space-joined genres string
contains the normalized query as a substring, preserving input order. -/
theorem applySearch_exact (l : List Podcast) (q : Str) (p : Podcast) :
    (jsLower (jsTrim q) = [] → applySearch l q = l) ∧
    (jsLower (jsTrim q) ≠ [] →
      ((p ∈ applySearch l q ↔ p ∈ l ∧
          (hasSub (jsLower p.title) (jsLower (jsTrim q)) ||
            hasSub (jsLower (joinSep (str (" ")) p.genres)) (jsLower (jsTrim q))) = true) ∧
        List.Sublist (applySearch l q) l)) := by
  constructor
  · intro h
    simp only [applySearch]
    rw [if_pos h]
  · intro h
    simp only [applySearch]
    rw [if_neg h]
    exact ⟨List.mem_filter, List.filter_sublist l⟩

/-- Witness for C2 at a concrete list and query. -/
theorem applySearch_exact_witness :
    ((demoPodcast ∈ applySearch [demoPodcast] (str (" TECH ")) ↔
        demoPodcast ∈ [demoPodcast] ∧
          (hasSub (jsLower demoPodcast.title) (jsLower (jsTrim (str (" TECH ")))) ||
            hasSub (jsLower (joinSep (str (" ")) demoPodcast.genres))
              (jsLower (jsTrim (str (" TECH "))))) = true) ∧
      List.Sublist (applySearch [demoPodcast] (str (" TECH "))) [demoPodcast]) ∧
    applySearch [demoPodcast] [] = [demoPodcast] :=
  ⟨(applySearch_exact [demoPodcast] (str (" TECH ")) demoPodcast).2 (by decide),
    (applySearch_exact [demoPodcast] [] demoPodcast).1 (by decide)⟩

/-- C3: `sortBy(list, "Most Popular")` returns a permutation of the input with
popularity non-increasing across every adjacent pair, records of equal
popularity keep their input relative order, and on the 8-record sample dataset
(popularities [95,88,82,91,70,99,76,85]) it yields the id order
[6,1,4,2,8,3,7,5]. -/
theorem sortList_mostPopular_spec (l : List Podcast) (c : Int) (now : Int) :
    List.Perm (sortList l (str ("Most Popular"))) l ∧
    List.Chain' (fun a b => b.popularity ≤ a.popularity)
      (sortList l (str ("Most Popular"))) ∧
    (sortList l (str ("Most Popular"))).filter (fun p => p.popularity == c) =
      l.filter (fun p => p.popularity == c) ∧
    (sortList (SAMPLE_PODCASTS now) (str ("Most Popular"))).map (fun p => p.id) =
      [6, 1, 4, 2, 8, 3, 7, 5] := by
  have hs : sortList l (str ("Most Popular")) = l.insertionSort cmpPop := by
    unfold sortList
    rw [if_pos rfl]
  refine ⟨?_, ?_, ?_, ?_⟩
  · rw [hs]
    exact List.perm_insertionSort cmpPop l
  · rw [hs]
    have tot : ∀ a b : Podcast, cmpPop a b ∨ cmpPop b a := by
      intro a b
      unfold cmpPop
      omega
    exact (chain'_insertionSort cmpPop tot l).imp
      (fun a b hab => by unfold cmpPop at hab; omega)
  · rw [hs]
    refine filter_insertionSort cmpPop _ ?_ l
    intro a b ha hr
    have ha2 : a.popularity = c := by simpa using ha
    have hlt : a.popularity < b.popularity := by
      unfold cmpPop at hr
      omega
    simp only [beq_eq_false_iff_ne, ne_eq]
    omega
  · rfl

/-- C4: sorting with mode "Newest", mode "Recently Updated", and any
unrecognized mode produces identical output: the list sorted descending by
`updatedAt` (a permutation with the comparator value non-positive across every
adjacent pair). -/
theorem sortList_recency_modes_agree (l : List Podcast) (t : Str)
    (h : t ≠ str ("Most Popular")) :
    sortList l t = sortList l (str ("Newest")) ∧
    sortList l t = sortList l (str ("Recently Updated")) ∧
    List.Perm (sortList l t) l ∧
    List.Chain' (fun a b => dateDiff b.updated a.updated ≤ 0) (sortList l t) := by
  have hs : sortList l t = l.insertionSort cmpUpd := by
    unfold sortList
    rw [if_neg h]
    split_ifs <;> rfl
  have hN : sortList l (str ("Newest")) = l.insertionSort cmpUpd := by
    unfold sortList
    rw [if_neg (by decide), if_pos rfl]
  have hR : sortList l (str ("Recently Updated")) = l.insertionSort cmpUpd := by
    unfold sortList
    rw [if_neg (by decide), if_neg (by decide)]
  have tot : ∀ a b : Podcast, cmpUpd a b ∨ cmpUpd b a := by
    intro a b
    unfold cmpUpd
    rcases a.updated with _ | x <;> rcases b.updated with _ | y <;> simp [dateDiff]
    omega
  refine ⟨hs.trans hN.symm, hs.trans hR.symm, ?_, ?_⟩
  · rw [hs]
    exact List.perm_insertionSort cmpUpd l
  · rw [hs]
    exact chain'_insertionSort cmpUpd tot l

/-- Witness for C4 at a concrete list and an unrecognized mode string. -/
theorem sortList_recency_modes_agree_witness :
    sortList [demoPodcast, exhibitPodcast] (str ("Alphabetical")) =
      sortList [demoPodcast, exhibitPodcast] (str ("Newest")) ∧
    sortList [demoPodcast, exhibitPodcast] (str ("Alphabetical")) =
      sortList [demoPodcast, exhibitPodcast] (str ("Recently Updated")) ∧
    List.Perm (sortList [demoPodcast, exhibitPodcast] (str ("Alphabetical")))
      [demoPodcast, exhibitPodcast] ∧
    List.Chain' (fun a b => dateDiff b.updated a.updated ≤ 0)
      (sortList [demoPodcast, exhibitPodcast] (str ("Alphabetical"))) :=
  sortList_recency_modes_agree [demoPodcast, exhibitPodcast]
    (str ("Alphabetical")) (by decide)

/-- C5: every free-text field inserted by the overlay's open operation into
the HTML string — title, description, each genre name, each season title and
season description — passes through `escapeHtml` first, and `escapeHtml`
output contains no character that could be interpreted as markup or break a
quoted attribute. -/
theorem openModal_escapes_free_text (fmtDate : Option Int → Str) (p : Podcast)
    (s : Str) (c : Char) (hc : c ∈ escapeHtml s) :
    openModalHtml fmtDate p =
      modalTemplate (escapeHtml p.title) (escapeHtml p.description) p.cover
        (fmtDate p.updated) (p.genres.map escapeHtml)
        (p.seasons.map
          (fun t => (escapeHtml t.title, escapeHtml (t.description.getD []), t.episodes))) ∧
    markupFree c := by
  constructor
  · simp only [openModalHtml, modalTemplate, List.map_map, Function.comp_def]
  · exact escapeHtml_markupFree s c hc

/-- Witness for C5 at a concrete record, query string and character. -/
theorem openModal_escapes_free_text_witness :
    openModalHtml exhibitFmt demoPodcast =
      modalTemplate (escapeHtml demoPodcast.title) (escapeHtml demoPodcast.description)
        demoPodcast.cover (exhibitFmt demoPodcast.updated)
        (demoPodcast.genres.map escapeHtml)
        (demoPodcast.seasons.map
          (fun t => (escapeHtml t.title, escapeHtml (t.description.getD []), t.episodes))) ∧
    markupFree 'a' :=
  openModal_escapes_free_text exhibitFmt demoPodcast (str ("a&b")) 'a' (by decide)

/-- C6: the human "last updated" string is a function of the whole-day
difference d = floor((now − updatedAt) / day): d ≤ 0 gives "Updated today",
d = 1 "Updated yesterday", 2 ≤ d ≤ 6 "Updated N days ago", d ≥ 7
"Updated N week(s) ago" with N = floor(d / 7) pluralized exactly when N > 1;
in particular 0/1/10/15 days give today/yesterday/"1 week"/"2 weeks". -/
theorem getLastUpdatedHuman_tiers (now u : Int) (p : Podcast)
    (h : p.updated = some u) :
    p.getLastUpdatedHuman now = lastUpdatedSpec (Int.fdiv (now - u) 86400000) ∧
    Podcast.getLastUpdatedHuman { demoPodcast with updated := some 0 } 0 =
      str ("Updated today") ∧
    Podcast.getLastUpdatedHuman { demoPodcast with updated := some 0 } 86400000 =
      str ("Updated yesterday") ∧
    Podcast.getLastUpdatedHuman { demoPodcast with updated := some 0 } 864000000 =
      str ("Updated 1 week ago") ∧
    Podcast.getLastUpdatedHuman { demoPodcast with updated := some 0 } 1296000000 =
      str ("Updated 2 weeks ago") := by
  refine ⟨?_, by decide, by decide, by decide, by decide⟩
  simp only [Podcast.getLastUpdatedHuman, lastUpdatedSpec, h]
  generalize Int.fdiv (now - u) 86400000 = d
  split_ifs <;> first | rfl | omega

/-- C7 counterexample: for a raw record whose update timestamp does not parse,
construction does not normalize the timestamp to the epoch (or any valid
value): the stored date is still invalid, so `updatedAt` is not a valid
comparable timestamp after construction. -/
theorem ofRaw_invalid_date_counterexample :
    (Podcast.ofRaw rawBad).updated.isSome = false ∧
    (Podcast.ofRaw rawBad).updated ≠ some 0 := by
  exact ⟨rfl, by decide⟩

/-- C7 amended: construction recovers a missing or non-array seasons field by
defaulting it to the empty sequence, but it performs no repair of the update
timestamp: the parsed date value — valid or invalid — is stored unchanged. -/
theorem ofRaw_defaults (o : RawPodcast) (s : List Season) :
    (Podcast.ofRaw o).updated = o.updated ∧
    (o.seasonsField = none → (Podcast.ofRaw o).seasons = []) ∧
    (o.seasonsField = some s → (Podcast.ofRaw o).seasons = s) := by
  refine ⟨rfl, ?_, ?_⟩
  · intro h
    simp [Podcast.ofRaw, h]
  · intro h
    simp [Podcast.ofRaw, h]

/-- Witness for the amended C7 at a concrete malformed record. -/
theorem ofRaw_defaults_witness :
    (Podcast.ofRaw rawBad).updated = rawBad.updated ∧
    (Podcast.ofRaw rawBad).seasons = [] :=
  ⟨(ofRaw_defaults rawBad []).1, (ofRaw_defaults rawBad []).2.1 rfl⟩

/-- The overlay in its closed configuration with focus elsewhere. -/
def closedModal : ModalState :=
  { showClass := false,
    ariaHidden := str ("true"),
    innerHtml := [],
    escListener := false,
    closeBtnFocused := false }

/-- C8: `close()` after `open(r)` yields one and the same observable closed
state regardless of the record, date formatter and prior state (show class
absent, aria-hidden set, detail content cleared, escape listener detached),
and `close()` on an already-closed overlay is a no-op. -/
theorem modal_close_roundtrip (f g : Option Int → Str) (p q : Podcast)
    (m m' n : ModalState) (hn : n.isClosed) :
    hideModal (openModal f p m) = hideModal (openModal g q m') ∧
    (hideModal (openModal f p m)).isClosed ∧
    hideModal n = n := by
  have hc : ∀ (f0 : Option Int → Str) (p0 : Podcast) (m0 : ModalState),
      hideModal (openModal f0 p0 m0) =
        { showClass := false, ariaHidden := str ("true"), innerHtml := [],
          escListener := false, closeBtnFocused := true } := by
    intro f0 p0 m0
    rfl
  refine ⟨(hc f p m).trans (hc g q m').symm, ?_, ?_⟩
  · rw [hc f p m]
    exact ⟨rfl, rfl, rfl, rfl⟩
  · obtain ⟨h1, h2, h3, h4⟩ := hn
    cases n
    simp_all [hideModal]

/-- Witness for C8 at concrete records and states. -/
theorem modal_close_roundtrip_witness :
    hideModal (openModal exhibitFmt demoPodcast closedModal) =
      hideModal (openModal exhibitFmt exhibitPodcast closedModal) ∧
    (hideModal (openModal exhibitFmt demoPodcast closedModal)).isClosed ∧
    hideModal closedModal = closedModal :=
  modal_close_roundtrip exhibitFmt exhibitFmt demoPodcast exhibitPodcast
    closedModal closedModal closedModal (by decide)

/-- C9: none of the three pipeline functions mutates its input array — every
previously allocated cell of the heap is unchanged afterwards, in particular
the input still holds the same elements in the same order — and each returns
a fresh array (a reference distinct from the input) holding the pure result,
the sort having done its ordering work only on the fresh copy. -/
theorem pipeline_no_mutation (h : Heap) (r i : Nat) (g q t : Str)
    (hr : r < h.length) (hi : i < h.length) :
    ((filterByGenreH h r g).2 ≠ r ∧
      readArr (filterByGenreH h r g).1 i = readArr h i ∧
      readArr (filterByGenreH h r g).1 (filterByGenreH h r g).2 =
        filterByGenre (readArr h r) g) ∧
    ((applySearchH h r q).2 ≠ r ∧
      readArr (applySearchH h r q).1 i = readArr h i ∧
      readArr (applySearchH h r q).1 (applySearchH h r q).2 =
        applySearch (readArr h r) q) ∧
    ((sortListH h r t).2 ≠ r ∧
      readArr (sortListH h r t).1 i = readArr h i ∧
      readArr (sortListH h r t).1 (sortListH h r t).2 =
        sortList (readArr h r) t) := by
  refine ⟨⟨?_, ?_, ?_⟩, ⟨?_, ?_, ?_⟩, ⟨?_, ?_, ?_⟩⟩
  · show h.length ≠ r
    omega
  · exact readArr_alloc_old h _ i hi
  · exact readArr_alloc_new h _
  · show h.length ≠ r
    omega
  · exact readArr_alloc_old h _ i hi
  · exact readArr_alloc_new h _
  · show h.length ≠ r
    omega
  · exact readArr_alloc_old h _ i hi
  · exact readArr_alloc_new h _

/-- Witness for C9 at a concrete one-array heap. -/
theorem pipeline_no_mutation_witness :
    ((filterByGenreH [[demoPodcast]] 0 (str ("Technology"))).2 ≠ 0 ∧
      readArr (filterByGenreH [[demoPodcast]] 0 (str ("Technology"))).1 0 =
        readArr [[demoPodcast]] 0 ∧
      readArr (filterByGenreH [[demoPodcast]] 0 (str ("Technology"))).1
          (filterByGenreH [[demoPodcast]] 0 (str ("Technology"))).2 =
        filterByGenre (readArr [[demoPodcast]] 0) (str ("Technology"))) ∧
    ((applySearchH [[demoPodcast]] 0 (str ("tech"))).2 ≠ 0 ∧
      readArr (applySearchH [[demoPodcast]] 0 (str ("tech"))).1 0 =
        readArr [[demoPodcast]] 0 ∧
      readArr (applySearchH [[demoPodcast]] 0 (str ("tech"))).1
          (applySearchH [[demoPodcast]] 0 (str ("tech"))).2 =
        applySearch (readArr [[demoPodcast]] 0) (str ("tech"))) ∧
    ((sortListH [[demoPodcast]] 0 (str ("Newest"))).2 ≠ 0 ∧
      readArr (sortListH [[demoPodcast]] 0 (str ("Newest"))).1 0 =
        readArr [[demoPodcast]] 0 ∧
      readArr (sortListH [[demoPodcast]] 0 (str ("Newest"))).1
          (sortListH [[demoPodcast]] 0 (str ("Newest"))).2 =
        sortList (readArr [[demoPodcast]] 0) (str ("Newest"))) :=
  pipeline_no_mutation [[demoPodcast]] 0 0 (str ("Technology")) (str ("tech"))
    (str ("Newest")) (by decide) (by decide)

set_option maxRecDepth 40000 in
set_option maxHeartbeats 1000000 in
/-- C10 (implicit): the cover field is embedded verbatim — never passed
through `escapeHtml` — both into the modal HTML inside the style attribute's
url('...') and into each card's background-image style; a cover holding a
quote and a tag reaches the output raw, while the markup-bearing title of the
same record does not appear raw (only escaped). -/
theorem cover_embedded_verbatim (fmtDate : Option Int → Str) (p : Podcast)
    (now : Int) :
    hasSub (openModalHtml fmtDate p) (bgUrl p.cover) = true ∧
    (cardOf p now).coverStyle = str ("url('") ++ p.cover ++ str ("')") ∧
    hasSub (openModalHtml exhibitFmt exhibitPodcast) (str ("x'<b>")) = true ∧
    hasSub (openModalHtml exhibitFmt exhibitPodcast) (str ("<b>hi</b>")) = false ∧
    escapeHtml (str ("x'<b>")) ≠ str ("x'<b>") := by
  refine ⟨?_, rfl, by decide, by decide, by decide⟩
  unfold openModalHtml
  apply hasSub_append_left
  apply hasSub_append_left
  apply hasSub_append_left
  apply hasSub_append_left
  apply hasSub_append_left
  apply hasSub_append_left
  apply hasSub_append_left
  apply hasSub_append_left
  apply hasSub_append_left
  apply hasSub_append_right
  exact hasSub_self (bgUrl p.cover)

/-- Witness for C6 at a concrete record and time (15 days after the update). -/
theorem getLastUpdatedHuman_tiers_witness :
    Podcast.getLastUpdatedHuman { demoPodcast with updated := some 0 } 1296000000 =
      lastUpdatedSpec (Int.fdiv (1296000000 - 0) 86400000) ∧
    Podcast.getLastUpdatedHuman { demoPodcast with updated := some 0 } 0 =
      str ("Updated today") ∧
    Podcast.getLastUpdatedHuman { demoPodcast with updated := some 0 } 86400000 =
      str ("Updated yesterday") ∧
    Podcast.getLastUpdatedHuman { demoPodcast with updated := some 0 } 864000000 =
      str ("Updated 1 week ago") ∧
    Podcast.getLastUpdatedHuman { demoPodcast with updated := some 0 } 1296000000 =
      str ("Updated 2 weeks ago") :=
  getLastUpdatedHuman_tiers 1296000000 0 { demoPodcast with updated := some 0 } rfl
